import Mathlib

/-!
# SublimeGo resource scanner and conflict detector: a shallow embedding

This file embeds the resource-scanner subsystem of the SublimeGo repository
(`internal/scanner`: the scanner, the conflict detector and the alias
generator) as executable Lean definitions, and proves or refutes the
specified properties about them.

Modelling conventions:
* Go strings become `String`; Go slices become `List`.
* The file-system walk is modelled by an explicit list of visited `.go`
  files, each carrying either its parsed syntax tree (package name plus the
  names of its top-level type declarations) or a parse error.
* Go's `map` grouping (`lo.GroupBy`) iterates its keys in an unspecified
  order; the embedding fixes a deterministic key order (`List.dedup` of the
  key projection) while keeping each group's contents in input order, which
  is how `lo.GroupBy` fills the group slices.
* The unbounded `for` loop in `generateAlias` is given explicit fuel
  `resources.length + 1`: each counter candidate is a distinct string and a
  collision consumes a distinct resource, so the Go loop always terminates
  within that bound; the fuel-exhausted branch returns the current
  candidate and is unreachable in every use below.
-/

/-- Metadata for a discovered resource (`scanner.ResourceMetadata`). -/
structure ResourceMetadata where
  typeName : String
  packageName : String
  filePath : String
  slug : String
deriving DecidableEq, Repr

/-- The kind of a detected conflict (`scanner.ConflictType`). -/
inductive ConflictType where
  | none
  | duplicateName
  | genericName
  | namingConvention
  | packageConflict
deriving DecidableEq, Repr

/-- A detected conflict between resources (`scanner.Conflict`). -/
structure Conflict where
  type : ConflictType
  severity : String
  message : String
  suggestion : String
  docsURL : String
  resources : List ResourceMetadata
  autoFix : Bool
deriving DecidableEq, Repr

/-- The fixed list of generic placeholder type names used both by
`isPotentialResource` and by `detectGenericNames`. -/
def genericNames : List String :=
  ["Resource", "Entity", "Model", "Item", "Object"]

/-- `strings.HasSuffix`, on the character level (the byte-level and
character-level notions coincide on well-formed UTF-8). Implemented over
`List Char` so that it reduces inside the kernel. -/
def strEndsWith (s suff : String) : Bool :=
  suff.data.isSuffixOf s.data

/-- `strings.ToLower`, restricted to the ASCII case mapping, which agrees
with Go on every string appearing in this development. -/
def strToLower (s : String) : String :=
  String.mk (s.data.map Char.toLower)

/-- Go's byte slicing `s[:len(s)-n]`, on the character level. -/
def strDropRight (s : String) (n : Nat) : String :=
  String.mk (s.data.take (s.data.length - n))

/-- `strings.TrimSuffix`: drop `suff` from the end of `s` when present. -/
def strTrimSuffix (s suff : String) : String :=
  if strEndsWith s suff then strDropRight s suff.length else s

/-- The package-level `titleCaser.String` (`cases.Title(language.English)`)
applied to a single-word package name: upper-case the first character. -/
def titleCase (s : String) : String :=
  match s.data with
  | [] => String.mk []
  | c :: cs => String.mk (Char.toUpper c :: cs)

/-- The candidate alias `fmt.Sprintf("%s_%s", PackageName, strings.ToLower(TypeName))`
computed identically inside both `generateAlias` functions and inside
`Detector.isAliasUnique`. -/
def candidateAlias (r : ResourceMetadata) : String :=
  r.packageName ++ "_" ++ strToLower r.typeName

namespace Scanner

/-- `Scanner.isPotentialResource`: the Go body checks the `Resource` suffix
and the generic names, but its final statement is `return true`, so every
type name is accepted. -/
def isPotentialResource (typeName : String) : Bool :=
  if strEndsWith typeName "Resource" then true
  else if genericNames.contains typeName then true
  else true

/-- `Scanner.extractSlug`: strip the `Resource` suffix, lower-case, then
pluralize (`y` to `ies`; trailing `s` unchanged; `x`/`ch`/`sh` append `es`;
otherwise append `s`). -/
def extractSlug (typeName : String) : String :=
  let name := strTrimSuffix typeName "Resource"
  let slug := strToLower name
  if strEndsWith slug "y" then strDropRight slug 1 ++ "ies"
  else if strEndsWith slug "s" then slug
  else if strEndsWith slug "x" || strEndsWith slug "ch" || strEndsWith slug "sh" then slug ++ "es"
  else slug ++ "s"

/-- `Scanner.isAliasUnique`: the Go body is the single statement
`return true`. -/
def isAliasUnique (_aliasName : String) (_exclude : ResourceMetadata) : Bool :=
  true

/-- `Scanner.generateAlias`: since `Scanner.isAliasUnique` is the constant
`true`, the first candidate is always returned and the Go counter loop is
dead code (the else branch here is unreachable). -/
def generateAlias (r : ResourceMetadata) : String :=
  let aliasName := candidateAlias r
  if isAliasUnique aliasName r then aliasName
  else aliasName

end Scanner

namespace Detector

/-- `Detector.isAliasUnique`: an alias is unique when no resource other
than `exclude` (identified by its (package, type) pair) has `aliasName` as
its candidate alias. -/
def isAliasUnique (rs : List ResourceMetadata) (aliasName : String)
    (exclude : ResourceMetadata) : Bool :=
  rs.all fun r =>
    (r.packageName == exclude.packageName && r.typeName == exclude.typeName) ||
    !(candidateAlias r == aliasName)

/-- The counter loop of `Detector.generateAlias`, with explicit fuel (see
the module docstring: `rs.length + 1` iterations always suffice). -/
def generateAliasLoop (rs : List ResourceMetadata) (exclude : ResourceMetadata)
    (aliasName : String) : Nat → Nat → String
  | 0, counter => aliasName ++ "_" ++ toString counter
  | fuel + 1, counter =>
    let candidate := aliasName ++ "_" ++ toString counter
    if isAliasUnique rs candidate exclude then candidate
    else generateAliasLoop rs exclude aliasName fuel (counter + 1)

/-- `Detector.generateAlias`: take the candidate alias if it is unique,
otherwise try `alias_1`, `alias_2`, ... -/
def generateAlias (rs : List ResourceMetadata) (r : ResourceMetadata) : String :=
  let aliasName := candidateAlias r
  if isAliasUnique rs aliasName r then aliasName
  else generateAliasLoop rs r aliasName (rs.length + 1) 1

/-- The keys of `lo.GroupBy(resources, TypeName)` whose group has more than
one member, in a fixed deterministic order. -/
def dupKeys (rs : List ResourceMetadata) : List String :=
  ((rs.map fun r => r.typeName).dedup).filter fun tn =>
    1 < (rs.filter fun r => r.typeName == tn).length

/-- The `error`-severity conflict emitted by `detectDuplicateNames` for one
duplicated type name `tn`. -/
def mkDupConflict (rs : List ResourceMetadata) (tn : String) : Conflict :=
  let group := rs.filter fun r => r.typeName == tn
  { type := ConflictType.duplicateName
    severity := "error"
    message := "Duplicate type name \x27" ++ tn ++ "\x27 found in " ++
      toString group.length ++ " packages"
    suggestion := "Rename types to be unique across all packages" ++
      "\nAuto-fix aliases: " ++ String.intercalate ", " (group.map fun r =>
        r.packageName ++ "." ++ r.typeName ++ " → " ++
        generateAlias rs r ++ "." ++ r.typeName)
    docsURL := "https://docs.sublimego.dev/resources/naming"
    resources := group
    autoFix := true }

/-- `Detector.detectDuplicateNames`: group by TypeName, one conflict per
group of size greater than one. -/
def detectDuplicateNames (rs : List ResourceMetadata) : List Conflict :=
  (dupKeys rs).map (mkDupConflict rs)

/-- `Detector.detectGenericNames`: one `warning` conflict per resource
whose type name is one of the generic placeholder names. -/
def detectGenericNames (rs : List ResourceMetadata) : List Conflict :=
  rs.filterMap fun r =>
    if genericNames.contains r.typeName then
      some { type := ConflictType.genericName
             severity := "warning"
             message := "Generic type name \x27" ++ r.typeName ++
               "\x27 should be more specific"
             suggestion := "Rename \x27" ++ r.typeName ++ "\x27 to \x27" ++
               titleCase r.packageName ++ r.typeName ++ "\x27"
             docsURL := "https://docs.sublimego.dev/resources/naming"
             resources := [r]
             autoFix := true }
    else none

/-- `Detector.detectNamingConventions`: one `info` conflict per resource
whose type name differs from `<TitleCasedPackage>Resource`. -/
def detectNamingConventions (rs : List ResourceMetadata) : List Conflict :=
  rs.filterMap fun r =>
    let expected := titleCase r.packageName ++ "Resource"
    if r.typeName == expected then none
    else
      some { type := ConflictType.namingConvention
             severity := "info"
             message := "Type \x27" ++ r.typeName ++
               "\x27 doesn\x27t follow naming convention"
             suggestion := "Consider renaming to \x27" ++ expected ++
               "\x27 for consistency"
             docsURL := "https://docs.sublimego.dev/resources/naming"
             resources := [r]
             autoFix := false }

/-- `Detector.detectPackageConflicts`: group by PackageName; a package
holding repeated type names yields one `error` conflict. -/
def detectPackageConflicts (rs : List ResourceMetadata) : List Conflict :=
  ((rs.map fun r => r.packageName).dedup).filterMap fun pkg =>
    let group := rs.filter fun r => r.packageName == pkg
    let typeNames := group.map fun r => r.typeName
    if 1 < group.length ∧ typeNames.dedup.length ≠ typeNames.length then
      some { type := ConflictType.packageConflict
             severity := "error"
             message := "Multiple resources with same name in package \x27" ++
               pkg ++ "\x27"
             suggestion := "Rename resources to be unique within their package"
             docsURL := "https://docs.sublimego.dev/resources/organization"
             resources := group
             autoFix := false }
    else none

/-- `Detector.Detect`: the four passes in their fixed order. -/
def Detect (rs : List ResourceMetadata) : List Conflict :=
  detectDuplicateNames rs ++ detectGenericNames rs ++
    detectNamingConventions rs ++ detectPackageConflicts rs

/-- `Detector.HasErrors`: some conflict has severity `error`. -/
def HasErrors (conflicts : List Conflict) : Bool :=
  conflicts.any fun c => c.severity == "error"

end Detector

/-- The parsed syntax tree of one Go file, reduced to what `scanFile`
inspects: the package clause and the names of the top-level type
declarations. -/
structure FileAST where
  packageName : String
  typeNames : List String
deriving DecidableEq, Repr

deriving instance DecidableEq for Except

/-- One `.go` file visited by the walk of `Scanner.Scan`, carrying the
outcome of `parser.ParseFile` on it. -/
structure GoFile where
  path : String
  parsed : Except String FileAST
deriving DecidableEq, Repr

/-- Whether `parser.ParseFile` fails on the file. -/
def parseFailed (f : GoFile) : Bool :=
  match f.parsed with
  | Except.error _ => true
  | Except.ok _ => false

/-- The scan result (`scanner.ScanResult`), without the wall-clock
`Duration` field. -/
structure ScanResult where
  success : Bool
  message : String
  resources : List ResourceMetadata
  conflicts : List Conflict
deriving DecidableEq, Repr

namespace Scanner

/-- `Scanner.scanFile`: wrap a parse failure, otherwise keep one
`ResourceMetadata` per type declaration accepted by
`isPotentialResource`. -/
def scanFile (f : GoFile) : Except String (List ResourceMetadata) :=
  match f.parsed with
  | Except.error e => Except.error ("failed to parse file: " ++ e)
  | Except.ok ast =>
    Except.ok (ast.typeNames.filterMap fun tn =>
      if isPotentialResource tn then
        some { typeName := tn
               packageName := ast.packageName
               filePath := f.path
               slug := extractSlug tn }
      else none)

/-- The `filepath.Walk` body of `Scanner.Scan`: visit the files in order,
appending their metadata; the first failing file aborts the walk with a
wrapped error naming its path. -/
def walkFiles : List GoFile → Except String (List ResourceMetadata)
  | [] => Except.ok []
  | f :: rest =>
    match scanFile f with
    | Except.error e => Except.error ("failed to scan " ++ f.path ++ ": " ++ e)
    | Except.ok md =>
      match walkFiles rest with
      | Except.error e => Except.error e
      | Except.ok more => Except.ok (md ++ more)

/-- The success message of `Scanner.Scan`. -/
def scanMessage (md : List ResourceMetadata) (conflicts : List Conflict) : String :=
  "Scanned " ++ toString md.length ++ " resources" ++
    (if 0 < conflicts.length then
      " (" ++ toString conflicts.length ++ " conflicts detected)"
    else "")

/-- `Scanner.Scan` over a walked file list: a walk error aborts with no
resources or conflicts; otherwise conflicts are detected and, when strict
mode is set and a blocking error exists, the scan fails while still
reporting the discovered resources and conflicts. -/
def Scan (strictMode : Bool) (files : List GoFile) : ScanResult :=
  match walkFiles files with
  | Except.error e =>
    { success := false
      message := "Scan failed: " ++ e
      resources := []
      conflicts := [] }
  | Except.ok allMetadata =>
    let conflicts := Detector.Detect allMetadata
    if Detector.HasErrors conflicts && strictMode then
      { success := false
        message := "Strict mode: blocking errors detected"
        resources := allMetadata
        conflicts := conflicts }
    else
      { success := true
        message := scanMessage allMetadata conflicts
        resources := allMetadata
        conflicts := conflicts }

end Scanner

/-- The outcome of the generation step, reduced to whether it succeeded
and whether the output file was written. -/
structure GenerationResult where
  success : Bool
  fileWritten : Bool
deriving DecidableEq, Repr

/-- Modelled from the spec: the Generator component is not among the
provided sources. Per the spec, in strict mode with any `error`-severity
conflict, "generation must abort before writing and report failure — no
partial file is written"; otherwise it writes the file. -/
def Generate (strictMode : Bool) (conflicts : List Conflict) : GenerationResult :=
  if strictMode && Detector.HasErrors conflicts then
    { success := false, fileWritten := false }
  else
    { success := true, fileWritten := true }

/-- Modelled from the spec: the caller of the pipeline is "expected to
print `Message` plus the conflict list and exit non-zero on
`Success=false`", so generation is attempted only after a successful
scan. Returns whether the output file gets written. -/
def pipelineWritesFile (strictMode : Bool) (files : List GoFile) : Bool :=
  let res := Scanner.Scan strictMode files
  if res.success then (Generate strictMode res.conflicts).fileWritten
  else false

/-! ## Concrete fixtures used by the theorems below -/

/-- Resource `(a_b, C)`: its candidate alias is `a_b_c`. -/
def c1R1 : ResourceMetadata := ⟨"C", "a_b", "f1.go", Scanner.extractSlug "C"⟩

/-- Resource `(a, B_c)`: its candidate alias is also `a_b_c`. -/
def c1R2 : ResourceMetadata := ⟨"B_c", "a", "f2.go", Scanner.extractSlug "B_c"⟩

/-- A second resource named `C`, making `C` a duplicated type name. -/
def c1R3 : ResourceMetadata := ⟨"C", "z", "f3.go", Scanner.extractSlug "C"⟩

/-- A second resource named `B_c`, making `B_c` a duplicated type name. -/
def c1R4 : ResourceMetadata := ⟨"B_c", "y", "f4.go", Scanner.extractSlug "B_c"⟩

/-- A resource set in which both `c1R1` and `c1R2` sit in auto-fixable
duplicate-name groups and share the candidate alias `a_b_c`. -/
def c1Resources : List ResourceMetadata := [c1R1, c1R2, c1R3, c1R4]

/-- Resource `(a_b, C)` in a two-element set: candidate alias `a_b_c`. -/
def c4R1 : ResourceMetadata := ⟨"C", "a_b", "g1.go", Scanner.extractSlug "C"⟩

/-- Resource `(a, B_c)`: shares the candidate alias `a_b_c` with `c4R1`. -/
def c4R2 : ResourceMetadata := ⟨"B_c", "a", "g2.go", Scanner.extractSlug "B_c"⟩

/-- A resource set on which the Detector suffixes the alias of `c4R1`
while the Scanner does not. -/
def c4Resources : List ResourceMetadata := [c4R1, c4R2]

/-- A resource whose candidate alias collides with nothing. -/
def c4Lone : ResourceMetadata :=
  ⟨"UserResource", "user", "user/resource.go", Scanner.extractSlug "UserResource"⟩

/-- A walk where the second file fails to parse. -/
def c5Files : List GoFile :=
  [⟨"shop/product.go", Except.ok ⟨"shop", ["ProductResource"]⟩⟩,
   ⟨"shop/bad.go", Except.error "expected declaration"⟩]

/-- Two packages each declaring a type named `Resource`. -/
def c6Files : List GoFile :=
  [⟨"a/resource.go", Except.ok ⟨"a", ["Resource"]⟩⟩,
   ⟨"b/resource.go", Except.ok ⟨"b", ["Resource"]⟩⟩]

/-- The metadata discovered from `c6Files`. -/
def c6Metadata : List ResourceMetadata :=
  [⟨"Resource", "a", "a/resource.go", "s"⟩,
   ⟨"Resource", "b", "b/resource.go", "s"⟩]

/-- A one-element resource set for instantiating the pass-order theorem. -/
def c7Resources : List ResourceMetadata :=
  [⟨"CompanyResource", "company", "company/resource.go", Scanner.extractSlug "CompanyResource"⟩]

/-- Two packages sharing the type name `ProductResource`, plus a package
with the unshared type name `UserResource`. -/
def c8Resources : List ResourceMetadata :=
  [⟨"ProductResource", "shop", "shop/product.go", Scanner.extractSlug "ProductResource"⟩,
   ⟨"ProductResource", "shop2", "shop2/product.go", Scanner.extractSlug "ProductResource"⟩,
   ⟨"UserResource", "user", "user/resource.go", Scanner.extractSlug "UserResource"⟩]

/-- Two packages each declaring a type named `Resource` (strict-mode abort
input for the result-carrying theorem). -/
def c9Files : List GoFile :=
  [⟨"c/resource.go", Except.ok ⟨"c", ["Resource"]⟩⟩,
   ⟨"d/resource.go", Except.ok ⟨"d", ["Resource"]⟩⟩]

/-- The metadata discovered from `c9Files`. -/
def c9Metadata : List ResourceMetadata :=
  [⟨"Resource", "c", "c/resource.go", "s"⟩,
   ⟨"Resource", "d", "d/resource.go", "s"⟩]

/-- A walk whose single file fails to parse. -/
def c9BadFiles : List GoFile :=
  [⟨"broken.go", Except.error "unexpected token"⟩]

/-! ## Helper lemmas -/

/-- Every conflict of the duplicate-names pass is a `duplicateName` conflict. -/
theorem type_of_mem_detectDuplicateNames {rs : List ResourceMetadata} {c : Conflict}
    (h : c ∈ Detector.detectDuplicateNames rs) : c.type = ConflictType.duplicateName := by
  obtain ⟨tn, -, rfl⟩ := List.mem_map.mp h
  rfl

/-- Every conflict of the generic-names pass is a `genericName` conflict. -/
theorem type_of_mem_detectGenericNames {rs : List ResourceMetadata} {c : Conflict}
    (h : c ∈ Detector.detectGenericNames rs) : c.type = ConflictType.genericName := by
  obtain ⟨r, -, hr⟩ := List.mem_filterMap.mp h
  split at hr
  · cases hr
    rfl
  · cases hr

/-- Every conflict of the naming-conventions pass is a `namingConvention`
conflict. -/
theorem type_of_mem_detectNamingConventions {rs : List ResourceMetadata} {c : Conflict}
    (h : c ∈ Detector.detectNamingConventions rs) : c.type = ConflictType.namingConvention := by
  obtain ⟨r, -, hr⟩ := List.mem_filterMap.mp h
  dsimp only at hr
  split at hr
  · cases hr
  · cases hr
    rfl

/-- Every conflict of the package-conflicts pass is a `packageConflict`
conflict. -/
theorem type_of_mem_detectPackageConflicts {rs : List ResourceMetadata} {c : Conflict}
    (h : c ∈ Detector.detectPackageConflicts rs) : c.type = ConflictType.packageConflict := by
  obtain ⟨pkg, -, hp⟩ := List.mem_filterMap.mp h
  dsimp only at hp
  split at hp
  · cases hp
    rfl
  · cases hp

/-- The duplicate-name keys are pairwise distinct. -/
theorem dupKeys_nodup (rs : List ResourceMetadata) : (Detector.dupKeys rs).Nodup :=
  (List.nodup_dedup _).filter _

/-- A type name is a duplicate-name key exactly when more than one
resource bears it. -/
theorem mem_dupKeys {rs : List ResourceMetadata} {tn : String} :
    tn ∈ Detector.dupKeys rs ↔ 1 < (rs.filter fun r => r.typeName == tn).length := by
  constructor
  · intro h
    simpa using List.of_mem_filter h
  · intro h
    apply List.mem_filter.mpr
    refine ⟨?_, by simpa using h⟩
    rw [List.mem_dedup]
    obtain ⟨r, hr⟩ := List.exists_mem_of_length_pos (Nat.lt_trans Nat.zero_lt_one h)
    obtain ⟨hr1, hr2⟩ := List.mem_filter.mp hr
    exact List.mem_map.mpr ⟨r, hr1, by simpa using hr2⟩

/-- Whether the group of a duplicate-name key `a` touches the type name
`tn` is exactly whether `a = tn`. -/
theorem group_any_typeName (rs : List ResourceMetadata) (a tn : String)
    (h : 1 < (rs.filter fun r => r.typeName == a).length) :
    ((rs.filter fun r => r.typeName == a).any fun r => r.typeName == tn) = (a == tn) := by
  by_cases hat : a = tn
  · subst hat
    obtain ⟨r, hr⟩ := List.exists_mem_of_length_pos (Nat.lt_trans Nat.zero_lt_one h)
    have := (List.mem_filter.mp hr).2
    simp only [beq_self_eq_true]
    exact List.any_eq_true.mpr ⟨r, hr, this⟩
  · rw [beq_eq_false_iff_ne.mpr hat, List.any_eq_false]
    intro r hr
    have h3 : r.typeName = a := by simpa using (List.mem_filter.mp hr).2
    simp [h3, hat]

/-- Counting the duplicate-name conflicts that touch the type name `tn`
over a deduplicated key list: one when `tn` is a key, zero otherwise. -/
theorem countP_mkDup_eq (rs : List ResourceMetadata) (tn : String) :
    ∀ (l : List String),
      (∀ x ∈ l, 1 < (rs.filter fun r => r.typeName == x).length) → l.Nodup →
      ((l.map (Detector.mkDupConflict rs)).countP fun c =>
          c.type == ConflictType.duplicateName &&
          c.resources.any fun r => r.typeName == tn) =
        if tn ∈ l then 1 else 0
  | [], _, _ => by simp
  | a :: t, hsub, hn => by
    have ha := hsub a (List.mem_cons_self a t)
    have hkey : ((Detector.mkDupConflict rs a).type == ConflictType.duplicateName &&
        (Detector.mkDupConflict rs a).resources.any fun r => r.typeName == tn) = (a == tn) := by
      have hres : (Detector.mkDupConflict rs a).resources =
          rs.filter fun r => r.typeName == a := rfl
      rw [hres]
      simp only [Detector.mkDupConflict, beq_self_eq_true, Bool.true_and]
      exact group_any_typeName rs a tn ha
    have ih := countP_mkDup_eq rs tn t (fun x hx => hsub x (List.mem_cons_of_mem a hx))
      (List.Nodup.of_cons hn)
    rw [List.map_cons, List.countP_cons, ih, hkey]
    by_cases hat : a = tn
    · subst hat
      have hnt : a ∉ t := (List.nodup_cons.mp hn).1
      simp [hnt]
    · have : (a == tn) = false := beq_eq_false_iff_ne.mpr hat
      simp [this, List.mem_cons, Ne.symm hat]

/-- None of the three later passes emits a `duplicateName` conflict. -/
theorem countP_dup_other_passes (rs : List ResourceMetadata) (tn : String) :
    ((Detector.detectGenericNames rs ++ Detector.detectNamingConventions rs ++
        Detector.detectPackageConflicts rs).countP fun c =>
        c.type == ConflictType.duplicateName &&
        c.resources.any fun r => r.typeName == tn) = 0 := by
  rw [List.countP_append, List.countP_append]
  have h1 : (Detector.detectGenericNames rs).countP (fun c =>
      c.type == ConflictType.duplicateName &&
      c.resources.any fun r => r.typeName == tn) = 0 := by
    rw [List.countP_eq_zero]
    intro c hc
    simp [type_of_mem_detectGenericNames hc]
  have h2 : (Detector.detectNamingConventions rs).countP (fun c =>
      c.type == ConflictType.duplicateName &&
      c.resources.any fun r => r.typeName == tn) = 0 := by
    rw [List.countP_eq_zero]
    intro c hc
    simp [type_of_mem_detectNamingConventions hc]
  have h3 : (Detector.detectPackageConflicts rs).countP (fun c =>
      c.type == ConflictType.duplicateName &&
      c.resources.any fun r => r.typeName == tn) = 0 := by
    rw [List.countP_eq_zero]
    intro c hc
    simp [type_of_mem_detectPackageConflicts hc]
  rw [h1, h2, h3]

/-- A walk containing a failing file aborts at the first such file, with
an error wrapping the file path around the parse error. -/
theorem walkFiles_error_of_parse_failure (files : List GoFile) :
    files.any parseFailed = true →
    ∃ p e, GoFile.mk p (Except.error e) ∈ files ∧
      Scanner.walkFiles files =
        Except.error ("failed to scan " ++ p ++ ": " ++ ("failed to parse file: " ++ e)) := by
  induction files with
  | nil => intro h; simp at h
  | cons f rest ih =>
    intro h
    match hf : f.parsed with
    | Except.error e =>
      refine ⟨f.path, e, ?_, ?_⟩
      · have hfeq : GoFile.mk f.path (Except.error e) = f := by
          cases f
          simp_all
        rw [hfeq]
        exact List.mem_cons_self f rest
      · simp [Scanner.walkFiles, Scanner.scanFile, hf]
    | Except.ok ast =>
      have hff : parseFailed f = false := by simp [parseFailed, hf]
      have hrest : rest.any parseFailed = true := by
        rw [List.any_cons, hff] at h
        simpa using h
      obtain ⟨p, e, hmem, hw⟩ := ih hrest
      refine ⟨p, e, List.mem_cons_of_mem f hmem, ?_⟩
      simp [Scanner.walkFiles, Scanner.scanFile, hf, hw]

/-! ## Claim theorems -/

/-- Claim C1: the claim asserts that the Detector's alias assignment is
injective on auto-fixable (package, type) pairs. The code refutes it:
in `c1Resources` the distinct pairs `(a_b, C)` and `(a, B_c)` both sit in
auto-fixable duplicate-name conflicts, and both receive the alias
`a_b_c_1`, because `isAliasUnique` compares a suffixed candidate only
against the other resources' unsuffixed candidate aliases. -/
theorem detector_alias_not_injective :
    Detector.generateAlias c1Resources c1R1 = "a_b_c_1" ∧
    Detector.generateAlias c1Resources c1R2 = "a_b_c_1" ∧
    ¬(c1R1.packageName = c1R2.packageName ∧ c1R1.typeName = c1R2.typeName) ∧
    (∃ c, c ∈ Detector.Detect c1Resources ∧ c.type = ConflictType.duplicateName ∧
      c.autoFix = true ∧ c1R1 ∈ c.resources) ∧
    (∃ c, c ∈ Detector.Detect c1Resources ∧ c.type = ConflictType.duplicateName ∧
      c.autoFix = true ∧ c1R2 ∈ c.resources) := by
  refine ⟨by decide, by decide, by decide, by decide, by decide⟩

/-- Claim C2: the claim asserts that a type declaration is recorded iff
its name ends in `Resource` or equals a generic placeholder name. The
code refutes it: `isPotentialResource` accepts every type name, including
`Foo`, which neither ends in `Resource` nor is generic. -/
theorem isPotentialResource_accepts_everything :
    (∀ s, Scanner.isPotentialResource s = true) ∧
    Scanner.isPotentialResource "Foo" = true ∧
    strEndsWith "Foo" "Resource" = false ∧
    genericNames.contains "Foo" = false := by
  refine ⟨fun s => ?_, by decide, by decide, by decide⟩
  unfold Scanner.isPotentialResource
  split
  · rfl
  · split <;> rfl

/-- Claim C3, counterexample: `extractSlug` maps `StatusResource` to
`status` (a stripped name already ending in `s` is left unchanged), not
to `statuses` as the claim states. -/
theorem slug_statusresource_counterexample :
    Scanner.extractSlug "StatusResource" ≠ "statuses" := by decide

/-- Claim C3, amended: the slug function strips the `Resource` suffix,
lower-cases, then pluralizes by the stated priority order, and in
particular maps `CompanyResource` to `companies`, `StatusResource` to
`status`, `BoxResource` to `boxes`, and `UserResource` to `users`. -/
theorem slug_pluralization_values :
    Scanner.extractSlug "CompanyResource" = "companies" ∧
    Scanner.extractSlug "StatusResource" = "status" ∧
    Scanner.extractSlug "BoxResource" = "boxes" ∧
    Scanner.extractSlug "UserResource" = "users" := by
  refine ⟨by decide, by decide, by decide, by decide⟩

/-- Claim C4, counterexample: on `c4Resources` the Detector suffixes the
alias of `(a_b, C)` to `a_b_c_1` while the Scanner returns the bare
candidate `a_b_c`, so the two alias functions are not the same function
applied twice. -/
theorem detector_scanner_alias_differ :
    Detector.generateAlias c4Resources c4R1 = "a_b_c_1" ∧
    Scanner.generateAlias c4R1 = "a_b_c" ∧
    Detector.generateAlias c4Resources c4R1 ≠ Scanner.generateAlias c4R1 := by
  refine ⟨by decide, by decide, by decide⟩

/-- Claim C4, amended: the Detector's and the Scanner's alias functions
agree on every resource whose candidate alias collides with no other
resource of the set; only on colliding candidates does the Detector
append a numeric suffix that the Scanner omits. -/
theorem alias_functions_agree_on_unique_candidate
    (rs : List ResourceMetadata) (r : ResourceMetadata)
    (h : Detector.isAliasUnique rs (candidateAlias r) r = true) :
    Detector.generateAlias rs r = Scanner.generateAlias r := by
  unfold Detector.generateAlias Scanner.generateAlias Scanner.isAliasUnique
  simp [h]

/-- Witness for the amended C4 at a lone resource. -/
theorem alias_functions_agree_witness :
    Detector.isAliasUnique [c4Lone] (candidateAlias c4Lone) c4Lone = true ∧
    Detector.generateAlias [c4Lone] c4Lone = Scanner.generateAlias c4Lone :=
  ⟨by decide, alias_functions_agree_on_unique_candidate [c4Lone] c4Lone (by decide)⟩

/-- Claim C5: a parse failure anywhere in the walk makes the whole scan
fail with `Success = false`, empty resources and conflicts, and a message
wrapping the failing file's path around the parse error — no partial
result is returned. -/
theorem scan_parse_failure_aborts (strict : Bool) (files : List GoFile)
    (h : files.any parseFailed = true) :
    (Scanner.Scan strict files).success = false ∧
    (Scanner.Scan strict files).resources = [] ∧
    (Scanner.Scan strict files).conflicts = [] ∧
    ∃ p e, GoFile.mk p (Except.error e) ∈ files ∧
      (Scanner.Scan strict files).message =
        "Scan failed: " ++ ("failed to scan " ++ p ++ ": " ++ ("failed to parse file: " ++ e)) := by
  obtain ⟨p, e, hmem, hw⟩ := walkFiles_error_of_parse_failure files h
  refine ⟨?_, ?_, ?_, p, e, hmem, ?_⟩ <;> simp [Scanner.Scan, hw]

/-- Witness for C5 at a two-file walk whose second file fails to parse. -/
theorem scan_parse_failure_aborts_witness :
    (Scanner.Scan false c5Files).success = false ∧
    (Scanner.Scan false c5Files).resources = [] ∧
    (Scanner.Scan false c5Files).conflicts = [] ∧
    ∃ p e, GoFile.mk p (Except.error e) ∈ c5Files ∧
      (Scanner.Scan false c5Files).message =
        "Scan failed: " ++ ("failed to scan " ++ p ++ ": " ++ ("failed to parse file: " ++ e)) :=
  scan_parse_failure_aborts false c5Files (by decide)

/-- Claim C6: with strict mode on and a blocking error-severity conflict
among the detected conflicts, `Scan` returns `Success = false` and the
pipeline writes no output file. -/
theorem strict_mode_blocks_generation (files : List GoFile) (md : List ResourceMetadata)
    (h1 : Scanner.walkFiles files = Except.ok md)
    (h2 : Detector.HasErrors (Detector.Detect md) = true) :
    (Scanner.Scan true files).success = false ∧
    pipelineWritesFile true files = false := by
  have hs : (Scanner.Scan true files).success = false := by
    simp [Scanner.Scan, h1, h2]
  refine ⟨hs, ?_⟩
  unfold pipelineWritesFile
  simp [hs]

/-- Witness for C6: two packages `a` and `b` each declaring a type named
`Resource` trigger a duplicate-name error, so the strict scan fails and
nothing is written. -/
theorem strict_mode_blocks_generation_witness :
    (Scanner.Scan true c6Files).success = false ∧
    pipelineWritesFile true c6Files = false :=
  strict_mode_blocks_generation c6Files c6Metadata (by decide) (by decide)

/-- Claim C7: `Detect` returns its conflicts grouped in the fixed pass
order — all duplicate-name conflicts first, then all generic-name
conflicts, then all naming-convention conflicts, then all package
conflicts, each pass appending to the result. -/
theorem detect_pass_order (rs : List ResourceMetadata) :
    Detector.Detect rs =
      Detector.detectDuplicateNames rs ++ Detector.detectGenericNames rs ++
        Detector.detectNamingConventions rs ++ Detector.detectPackageConflicts rs ∧
    (∀ c ∈ Detector.detectDuplicateNames rs, c.type = ConflictType.duplicateName) ∧
    (∀ c ∈ Detector.detectGenericNames rs, c.type = ConflictType.genericName) ∧
    (∀ c ∈ Detector.detectNamingConventions rs, c.type = ConflictType.namingConvention) ∧
    (∀ c ∈ Detector.detectPackageConflicts rs, c.type = ConflictType.packageConflict) :=
  ⟨rfl, fun _ => type_of_mem_detectDuplicateNames,
    fun _ => type_of_mem_detectGenericNames,
    fun _ => type_of_mem_detectNamingConventions,
    fun _ => type_of_mem_detectPackageConflicts⟩

/-- Witness for C7 at a concrete one-resource set. -/
theorem detect_pass_order_witness :
    Detector.Detect c7Resources =
      Detector.detectDuplicateNames c7Resources ++ Detector.detectGenericNames c7Resources ++
        Detector.detectNamingConventions c7Resources ++ Detector.detectPackageConflicts c7Resources :=
  (detect_pass_order c7Resources).1

/-- Claim C8: a type name borne by more than one resource yields exactly
one duplicate-name conflict, with severity `error`, `AutoFix = true`, and
a resource list holding all sharing resources; a type name borne by at
most one resource yields no duplicate-name conflict. -/
theorem detect_duplicate_names_complete (rs : List ResourceMetadata) (tn : String) :
    (1 < (rs.filter fun r => r.typeName == tn).length →
      ((Detector.Detect rs).countP fun c =>
          c.type == ConflictType.duplicateName &&
          c.resources.any fun r => r.typeName == tn) = 1 ∧
      Detector.mkDupConflict rs tn ∈ Detector.Detect rs ∧
      (Detector.mkDupConflict rs tn).severity = "error" ∧
      (Detector.mkDupConflict rs tn).autoFix = true ∧
      (Detector.mkDupConflict rs tn).resources = rs.filter fun r => r.typeName == tn) ∧
    ((rs.filter fun r => r.typeName == tn).length ≤ 1 →
      ((Detector.Detect rs).countP fun c =>
          c.type == ConflictType.duplicateName &&
          c.resources.any fun r => r.typeName == tn) = 0) := by
  have hsplit : ∀ (n : Nat),
      ((Detector.detectDuplicateNames rs).countP fun c =>
        c.type == ConflictType.duplicateName &&
        c.resources.any fun r => r.typeName == tn) = n →
      ((Detector.Detect rs).countP fun c =>
        c.type == ConflictType.duplicateName &&
        c.resources.any fun r => r.typeName == tn) = n := by
    intro n hd
    have hdef : Detector.Detect rs =
        Detector.detectDuplicateNames rs ++ Detector.detectGenericNames rs ++
          Detector.detectNamingConventions rs ++ Detector.detectPackageConflicts rs := rfl
    rw [hdef, List.countP_append, List.countP_append, List.countP_append, hd]
    have hz := countP_dup_other_passes rs tn
    rw [List.countP_append, List.countP_append] at hz
    omega
  have hcount := countP_mkDup_eq rs tn (Detector.dupKeys rs)
    (fun x hx => mem_dupKeys.mp hx) (dupKeys_nodup rs)
  constructor
  · intro h
    have hmemkey : tn ∈ Detector.dupKeys rs := mem_dupKeys.mpr h
    refine ⟨hsplit 1 ?_, ?_, rfl, rfl, rfl⟩
    · have := hcount
      rw [if_pos hmemkey] at this
      exact this
    · have : Detector.mkDupConflict rs tn ∈ Detector.detectDuplicateNames rs :=
        List.mem_map.mpr ⟨tn, hmemkey, rfl⟩
      exact List.mem_append.mpr (Or.inl (List.mem_append.mpr (Or.inl
        (List.mem_append.mpr (Or.inl this)))))
  · intro h
    have hnot : tn ∉ Detector.dupKeys rs := by
      intro hmem
      exact absurd (mem_dupKeys.mp hmem) (Nat.not_lt.mpr h)
    refine hsplit 0 ?_
    have := hcount
    rw [if_neg hnot] at this
    exact this

/-- Witness for C8: in `c8Resources` the type name `ProductResource` is
shared by two resources and yields exactly one duplicate-name conflict,
while `UserResource` is borne by one resource and yields none. -/
theorem detect_duplicate_names_complete_witness :
    (((Detector.Detect c8Resources).countP fun c =>
        c.type == ConflictType.duplicateName &&
        c.resources.any fun r => r.typeName == "ProductResource") = 1 ∧
      Detector.mkDupConflict c8Resources "ProductResource" ∈ Detector.Detect c8Resources ∧
      (Detector.mkDupConflict c8Resources "ProductResource").severity = "error" ∧
      (Detector.mkDupConflict c8Resources "ProductResource").autoFix = true ∧
      (Detector.mkDupConflict c8Resources "ProductResource").resources =
        c8Resources.filter fun r => r.typeName == "ProductResource") ∧
    ((Detector.Detect c8Resources).countP fun c =>
        c.type == ConflictType.duplicateName &&
        c.resources.any fun r => r.typeName == "UserResource") = 0 :=
  ⟨(detect_duplicate_names_complete c8Resources "ProductResource").1 (by decide),
   (detect_duplicate_names_complete c8Resources "UserResource").2 (by decide)⟩

/-- Claim C9: a strict-mode abort returns `Success = false` with the
message `Strict mode: blocking errors detected` while still carrying the
complete discovered resource and conflict lists, whereas a parse-error
abort carries neither. -/
theorem strict_abort_vs_parse_abort :
    (∀ (files : List GoFile) (md : List ResourceMetadata),
      Scanner.walkFiles files = Except.ok md →
      Detector.HasErrors (Detector.Detect md) = true →
      Scanner.Scan true files =
        { success := false
          message := "Strict mode: blocking errors detected"
          resources := md
          conflicts := Detector.Detect md }) ∧
    (∀ (files : List GoFile) (e : String),
      Scanner.walkFiles files = Except.error e →
      (Scanner.Scan true files).resources = [] ∧
      (Scanner.Scan true files).conflicts = []) := by
  constructor
  · intro files md hw he
    simp [Scanner.Scan, hw, he]
  · intro files e hw
    constructor <;> simp [Scanner.Scan, hw]

/-- Witness for C9: the strict abort on `c9Files` returns the two
discovered resources and their conflicts; the parse abort on `c9BadFiles`
returns empty lists. -/
theorem strict_abort_vs_parse_abort_witness :
    Scanner.Scan true c9Files =
      { success := false
        message := "Strict mode: blocking errors detected"
        resources := c9Metadata
        conflicts := Detector.Detect c9Metadata } ∧
    (Scanner.Scan true c9BadFiles).resources = [] ∧
    (Scanner.Scan true c9BadFiles).conflicts = [] :=
  ⟨strict_abort_vs_parse_abort.1 c9Files c9Metadata (by decide) (by decide),
   strict_abort_vs_parse_abort.2 c9BadFiles
     ("failed to scan broken.go: " ++ ("failed to parse file: unexpected token")) (by decide)⟩

/-- Claim C10: for the type name `Resource` the slug function strips the
whole name to the empty string, no pluralization suffix test matches the
empty string, and the default branch yields the slug `s`. -/
theorem slug_of_bare_resource_name :
    strTrimSuffix "Resource" "Resource" = "" ∧
    strEndsWith "" "y" = false ∧ strEndsWith "" "s" = false ∧
    strEndsWith "" "x" = false ∧ strEndsWith "" "ch" = false ∧
    strEndsWith "" "sh" = false ∧
    Scanner.extractSlug "Resource" = "s" := by
  refine ⟨by decide, by decide, by decide, by decide, by decide, by decide, by decide⟩
